import Mathlib

/-!
Verification of the filter-navigation widget (`src/assets/js/filter-nav.js`).

Strings from the JavaScript runtime are modelled as `List Char`; DOM elements
that each operation looks up are modelled as `Option`-valued fields of a
`PageState` record (a `none` field is a missing element).  Each JavaScript
function is translated into a Lean function on this state.
-/

/-- JavaScript `String.prototype.startsWith`-style check used to build
substring search: does `need` occur at the head of `hay`? -/
def startsWithList : List Char → List Char → Bool
  | _, [] => true
  | [], _ :: _ => false
  | a :: as, b :: bs => a == b && startsWithList as bs

/-- JavaScript `String.prototype.includes`: `need` occurs contiguously in `hay`. -/
def jsIncludes : List Char → List Char → Bool
  | [], need => need.isEmpty
  | a :: t, need => startsWithList (a :: t) need || jsIncludes t need

/-- JavaScript `String.prototype.toLowerCase`, character by character. -/
def listToLower (s : List Char) : List Char := s.map Char.toLower

/-- Whitespace characters removed by JavaScript `String.prototype.trim`
(the ASCII ones; the claims only involve these). -/
def isJsWs (c : Char) : Bool :=
  c == ' ' || c == '\t' || c == '\n' || c == '\r' || c == '\x0b' || c == '\x0c'

/-- JavaScript `String.prototype.trim`: drop whitespace from both ends. -/
def jsTrim (s : List Char) : List Char :=
  ((s.dropWhile isJsWs).reverse.dropWhile isJsWs).reverse

theorem jsIncludes_nil (hay : List Char) : jsIncludes hay [] = true := by
  cases hay <;> simp [jsIncludes, startsWithList, List.isEmpty]

theorem dropWhile_eq_nil_of_all (p : Char → Bool) :
    ∀ l : List Char, (∀ c ∈ l, p c = true) → l.dropWhile p = []
  | [], _ => rfl
  | c :: rest, h => by
    simp only [List.dropWhile]
    rw [h c (List.mem_cons_self c rest)]
    exact dropWhile_eq_nil_of_all p rest fun x hx => h x (List.mem_cons_of_mem _ hx)

theorem toLower_of_ws (c : Char) (h : isJsWs c = true) : Char.toLower c = c := by
  simp only [isJsWs, Bool.or_eq_true, beq_iff_eq] at h
  rcases h with ((((h | h) | h) | h) | h) | h <;> subst h <;> decide

theorem listToLower_of_ws (v : List Char) (h : ∀ c ∈ v, isJsWs c = true) :
    listToLower v = v := by
  induction v with
  | nil => rfl
  | cons c rest ih =>
    simp only [listToLower, List.map_cons]
    rw [toLower_of_ws c (h c (List.mem_cons_self c rest))]
    have := ih fun x hx => h x (List.mem_cons_of_mem _ hx)
    simpa [listToLower] using this

theorem jsTrim_of_ws (v : List Char) (h : ∀ c ∈ v, isJsWs c = true) :
    jsTrim v = [] := by
  simp [jsTrim, dropWhile_eq_nil_of_all isJsWs v h]

/-! ## Back-to-top control (`initializeBackToTop`, scroll handler) -/

/-- The injected back-to-top button: only its `show` CSS class matters. -/
structure BackToTop where
  hasShowClass : Bool
deriving DecidableEq

/-- One recomputation of the scroll handler (the body of the
`requestAnimationFrame` callback in `initializeBackToTop`): toggle the
`show` class according to `window.pageYOffset`. -/
def backToTopFrame (scrolled : Nat) (b : BackToTop) : BackToTop :=
  if scrolled > 300 then { b with hasShowClass := true }
  else { b with hasShowClass := false }

/-! ## Page state -/

/-- A `.source-btn` item inside the `.all-sources` container, as touched by
`filterSources`: its text, its optional `data-source` attribute, its
`style.display` and its `aria-hidden` attribute. -/
structure SourceButton where
  textContent : List Char
  dataSource : Option (List Char)
  display : List Char
  ariaHidden : Option (List Char)
deriving DecidableEq

/-- The `.no-results` message element (created lazily by `filterSources`). -/
structure NoResults where
  innerHTML : List Char
  display : List Char
deriving DecidableEq

/-- The `.all-sources` container: its `.source-btn` children and the optional
`.no-results` child. -/
structure AllSources where
  buttons : List SourceButton
  noResults : Option NoResults
deriving DecidableEq

/-- The `#sources-content` panel. -/
structure SourcesContent where
  display : List Char
  hasShowClass : Bool
  ariaHidden : Option (List Char)
deriving DecidableEq

/-- The `.toggle-sources` button. -/
structure ToggleButton where
  ariaExpanded : Option (List Char)
deriving DecidableEq

/-- The slice of the document the script reads and writes.  A `none` field is
an element missing from the page.  `toggleText` is the text content of the
`.toggle-text` span; `toggleIconPresent` records whether the `.toggle-icon`
span exists (its content is never used); `searchValue` is the value of the
`#source-search` input; `liveRegion` is the text of the
`#search-results-live` region (`none` before it is first created). -/
structure PageState where
  sourcesContent : Option SourcesContent
  toggleButton : Option ToggleButton
  toggleText : Option (List Char)
  toggleIconPresent : Bool
  searchValue : Option (List Char)
  allSources : Option AllSources
  liveRegion : Option (List Char)
deriving DecidableEq

/-! ## `initializeFilterNav` and `toggleSourcesSection` -/

/-- `initializeFilterNav`: if the panel and the toggle button exist, force the
initial collapsed ARIA state. -/
def initializeFilterNav (s : PageState) : PageState :=
  match s.sourcesContent, s.toggleButton with
  | some content, some _ =>
    { s with
      toggleButton := some { ariaExpanded := some "false".data }
      sourcesContent := some { content with ariaHidden := some "true".data } }
  | _, _ => s

/-- `toggleSourcesSection`: flip the panel between expanded and collapsed.
The deferred focus move (a 300ms `setTimeout` on the search input) touches
none of the modelled state. -/
def toggleSourcesSection (s : PageState) : PageState :=
  match s.sourcesContent, s.toggleButton, s.toggleText with
  | some content, some button, some _ =>
    if s.toggleIconPresent then
      if button.ariaExpanded == some "true".data then
        { s with
          sourcesContent := some { content with
            display := "none".data, hasShowClass := false,
            ariaHidden := some "true".data }
          toggleButton := some { ariaExpanded := some "false".data }
          toggleText := some "Show All Sources".data }
      else
        { s with
          sourcesContent := some { content with
            display := "block".data, hasShowClass := true,
            ariaHidden := some "false".data }
          toggleButton := some { ariaExpanded := some "true".data }
          toggleText := some "Hide All Sources".data }
    else s
  | _, _, _ => s

/-! ## `filterSources` (the real pass, before the debounce override) -/

/-- `escapeHtml`'s character map (`/[&<>"']/g`). -/
def escapeHtmlChar (c : Char) : List Char :=
  if c == '&' then "&amp;".data
  else if c == '<' then "&lt;".data
  else if c == '>' then "&gt;".data
  else if c == '"' then "&quot;".data
  else if c == '\'' then "&#039;".data
  else [c]

/-- `escapeHtml`: replace each of the five HTML-significant characters by its
entity. -/
def escapeHtml : List Char → List Char
  | [] => []
  | c :: rest => escapeHtmlChar c ++ escapeHtml rest

/-- The `innerHTML` that `filterSources` gives a freshly created
`.no-results` element. -/
def noResultsHTML (searchTerm : List Char) : List Char :=
  "<i class=\"fas fa-search\"></i> No sources found matching \"".data
    ++ escapeHtml searchTerm ++ "\"".data

/-- The normalized query: `searchInput.value.toLowerCase().trim()`. -/
def normalizeQuery (value : List Char) : List Char := jsTrim (listToLower value)

/-- The per-button match test of `filterSources`: the lower-cased text or the
lower-cased `data-source` attribute (missing attribute read as `''`) contains
the search term. -/
def buttonMatches (searchTerm : List Char) (b : SourceButton) : Bool :=
  jsIncludes (listToLower b.textContent) searchTerm
    || jsIncludes (listToLower (b.dataSource.getD [])) searchTerm

/-- The per-button update of `filterSources`'s `forEach` body. -/
def filterButtonPass (searchTerm : List Char) (b : SourceButton) : SourceButton :=
  if buttonMatches searchTerm b then
    { b with display := "flex".data, ariaHidden := none }
  else
    { b with display := "none".data, ariaHidden := some "true".data }

/-- `announceSearchResults`'s announcement text. -/
def announceText (count : Nat) (searchTerm : List Char) : List Char :=
  if searchTerm.isEmpty then "All sources displayed".data
  else if count == 0 then "No sources found".data
  else if count == 1 then "1 source found".data
  else (Nat.repr count).data ++ " sources found".data

/-- One actual filter pass (`filterSources` as declared, i.e. the function the
debounce wrapper eventually runs): update every button's visibility, manage
the `.no-results` message, and write the live-region announcement. -/
def filterSourcesCore (s : PageState) : PageState :=
  match s.searchValue, s.allSources with
  | some value, some container =>
    let searchTerm := normalizeQuery value
    let newButtons := container.buttons.map (filterButtonPass searchTerm)
    let visibleCount := container.buttons.countP (buttonMatches searchTerm)
    let newMsg :=
      if visibleCount == 0 && !searchTerm.isEmpty then
        some (match container.noResults with
          | some m => { m with display := "block".data }
          | none => { innerHTML := noResultsHTML searchTerm,
                      display := "block".data })
      else
        match container.noResults with
        | some m => some { m with display := "none".data }
        | none => none
    { s with
      allSources := some { buttons := newButtons, noResults := newMsg }
      liveRegion := some (announceText visibleCount searchTerm) }
  | _, _ => s

/-! ## `initializeActiveFilters` -/

/-- A navigation link (`.category-btn` or `.source-btn` as scanned by
`initializeActiveFilters`): its `href` attribute, its `active` class and its
`aria-current` attribute. -/
structure NavLink where
  href : Option (List Char)
  hasActiveClass : Bool
  ariaCurrent : Option (List Char)
deriving DecidableEq

/-- The body of `initializeActiveFilters`'s `forEach`: if the link has a
truthy (present, non-empty) `href` and the current path contains
`href.replace(/^[^\x2f]*/, '')` — the href with its maximal leading run of
non-slash characters removed — mark it active and current. -/
def markActiveFilter (currentPath : List Char) (btn : NavLink) : NavLink :=
  match btn.href with
  | some href =>
    if !href.isEmpty && jsIncludes currentPath (href.dropWhile (fun c => c != '/')) then
      { btn with hasActiveClass := true, ariaCurrent := some "page".data }
    else btn
  | none => btn

/-- `initializeActiveFilters`: mark both fixed categories of links against
`window.location.pathname`. -/
def initializeActiveFilters (currentPath : List Char)
    (categoryBtns sourceBtns : List NavLink) : List NavLink × List NavLink :=
  (categoryBtns.map (markActiveFilter currentPath),
   sourceBtns.map (markActiveFilter currentPath))

/-- Drop everything up to and including the first occurrence of `://`. -/
def dropSchemeSep : List Char → List Char
  | ':' :: '/' :: '/' :: rest => rest
  | [] => []
  | _ :: rest => dropSchemeSep rest

/-- The transformation the specification describes for link targets: strip
any scheme/host prefix, keeping the path.  A target of the shape
`scheme://host/path` becomes `/path`; a target with no `://` has no
scheme/host prefix and is unchanged. -/
def stripSchemeHostSpec (href : List Char) : List Char :=
  if jsIncludes href "://".data then
    (dropSchemeSep href).dropWhile (fun c => c != '/')
  else href

/-! ## Debounce (`filterSources` reassignment, 150ms) -/

/-- The timeline of actual filter passes produced by the debounced
`filterSources`.  `v` is the input value current while the pending timer set
at the previous invocation is live, `f` its scheduled fire time, and the list
holds the remaining invocations as `(time, input value at that time)` pairs
in chronological order.  A pending timer due at or before the next invocation
has already fired (reading the value current at that moment); otherwise the
invocation's `clearTimeout` cancels it outright and `setTimeout` re-arms the
timer 150ms after the invocation.  The result lists the executed passes as
`(execution time, value read)` pairs. -/
def debounceRun : List Char → Nat → List (Nat × List Char) → List (Nat × List Char)
  | v, f, [] => [(f, v)]
  | v, f, (t, v2) :: rest =>
    if f ≤ t then (f, v) :: debounceRun v2 (t + 150) rest
    else debounceRun v2 (t + 150) rest

/-- Executed filter passes for a full sequence of invocations of the
debounced `filterSources`. -/
def debounceTimeline : List (Nat × List Char) → List (Nat × List Char)
  | [] => []
  | (t, v) :: rest => debounceRun v (t + 150) rest

/-- Invocation times are non-decreasing and each invocation occurs less than
150ms after the previous one. -/
def gapsOk : List (Nat × List Char) → Bool
  | [] => true
  | [_] => true
  | (t1, _) :: (t2, v2) :: rest =>
    (t1 ≤ t2 && t2 < t1 + 150) && gapsOk ((t2, v2) :: rest)

/-! ## Keydown handler (Escape branch) -/

/-- The Escape branch of the document `keydown` handler: when the search
input exists and is the focused element, clear its value and invoke the
(debounced) `filterSources`.  `focused` models
`document.activeElement === searchInput`.  The returned `Bool` records
whether a (debounced) filter pass was scheduled. -/
def keydownEscapeStep (focused : Bool) (s : PageState) : PageState × Bool :=
  match s.searchValue with
  | some _ =>
    if focused then ({ s with searchValue := some [] }, true) else (s, false)
  | none => (s, false)

/-! ## Invariants and helper predicates -/

/-- The toggle button's `aria-expanded` and the panel's `aria-hidden` are
logical negations of each other. -/
def ariaNegationInv (s : PageState) : Prop :=
  ∀ b c, s.toggleButton = some b → s.sourcesContent = some c →
    (b.ariaExpanded = some "true".data ∧ c.ariaHidden = some "false".data) ∨
    (b.ariaExpanded = some "false".data ∧ c.ariaHidden = some "true".data)

/-! ## Theorems -/

/-- A page with every optional element absent. -/
def emptyPage : PageState :=
  { sourcesContent := none, toggleButton := none, toggleText := none,
    toggleIconPresent := false, searchValue := none, allSources := none,
    liveRegion := none }

/-- A freshly loaded page with the panel, toggle button, label and icon
present and no attributes set yet. -/
def basicPage : PageState :=
  { sourcesContent := some { display := [], hasShowClass := false, ariaHidden := none },
    toggleButton := some { ariaExpanded := none },
    toggleText := some "Show All Sources".data,
    toggleIconPresent := true, searchValue := none, allSources := none,
    liveRegion := none }

/-- Claim C8: each scroll-handler recomputation shows the back-to-top control
iff the scroll offset strictly exceeds 300; in particular offset 299 leaves it
hidden, 301 shows it, and a return to offset 0 hides it again. -/
theorem C8_back_to_top_threshold :
    (∀ (n : Nat) (b : BackToTop),
        ((backToTopFrame n b).hasShowClass = true ↔ 300 < n)) ∧
    (∀ b : BackToTop, (backToTopFrame 299 b).hasShowClass = false) ∧
    (∀ b : BackToTop, (backToTopFrame 301 b).hasShowClass = true) ∧
    (∀ b : BackToTop,
        (backToTopFrame 0 (backToTopFrame 301 b)).hasShowClass = false) := by
  refine ⟨fun n b => ?_, fun b => rfl, fun b => rfl, fun b => rfl⟩
  unfold backToTopFrame
  split <;> simp <;> omega

/-- Claim C9: every operation that needs specific elements is a strict no-op
(the page state is unchanged) when any required element is missing: the
initializer needs the panel and the toggle button, the toggle needs the
panel, button, label span and icon span, and the filter pass needs the search
input and the sources container. -/
theorem C9_missing_elements_noop :
    (∀ s : PageState, s.sourcesContent = none ∨ s.toggleButton = none →
        initializeFilterNav s = s) ∧
    (∀ s : PageState,
        s.sourcesContent = none ∨ s.toggleButton = none ∨
          s.toggleText = none ∨ s.toggleIconPresent = false →
        toggleSourcesSection s = s) ∧
    (∀ s : PageState, s.searchValue = none ∨ s.allSources = none →
        filterSourcesCore s = s) := by
  refine ⟨fun s h => ?_, fun s h => ?_, fun s h => ?_⟩
  · unfold initializeFilterNav
    split
    · rename_i heq1 heq2
      rcases h with h | h <;> simp_all
    · rfl
  · unfold toggleSourcesSection
    split
    · rename_i heq1 heq2 heq3
      rcases h with h | h | h | h <;> simp_all
    · rfl
  · unfold filterSourcesCore
    split
    · rename_i heq1 heq2
      rcases h with h | h <;> simp_all
    · rfl

/-- Claim C7: `aria-expanded` on the toggle and `aria-hidden` on the panel
are logical negations of each other after initialization (elements present)
and after every completed toggle transition, and the invariant is preserved
by every toggle operation. -/
theorem C7_aria_negation_invariant (s : PageState)
    (hc : s.sourcesContent.isSome = true) (hb : s.toggleButton.isSome = true) :
    ariaNegationInv (initializeFilterNav s) ∧
    (∀ t : PageState, ariaNegationInv t → ariaNegationInv (toggleSourcesSection t)) ∧
    (∀ t : PageState, t.sourcesContent.isSome = true →
        t.toggleButton.isSome = true → t.toggleText.isSome = true →
        t.toggleIconPresent = true → ariaNegationInv (toggleSourcesSection t)) := by
  refine ⟨?_, fun t ht => ?_, fun t h1 h2 h3 h4 => ?_⟩
  · obtain ⟨content, hcontent⟩ := Option.isSome_iff_exists.mp hc
    obtain ⟨button, hbutton⟩ := Option.isSome_iff_exists.mp hb
    intro b c hbeq hceq
    simp only [initializeFilterNav, hcontent, hbutton] at hbeq hceq
    cases hbeq; cases hceq
    right; exact ⟨rfl, rfl⟩
  · unfold toggleSourcesSection
    split
    · rename_i content button text heq1 heq2 heq3
      split
      · split
        · intro b c hbeq hceq
          cases hbeq; cases hceq
          right; exact ⟨rfl, rfl⟩
        · intro b c hbeq hceq
          cases hbeq; cases hceq
          left; exact ⟨rfl, rfl⟩
      · exact ht
    · exact ht
  · obtain ⟨content, hcontent⟩ := Option.isSome_iff_exists.mp h1
    obtain ⟨button, hbutton⟩ := Option.isSome_iff_exists.mp h2
    obtain ⟨text, htext⟩ := Option.isSome_iff_exists.mp h3
    unfold toggleSourcesSection
    rw [hcontent, hbutton, htext]
    simp only [h4, if_true]
    split
    · intro b c hbeq hceq
      cases hbeq; cases hceq
      right; exact ⟨rfl, rfl⟩
    · intro b c hbeq hceq
      cases hbeq; cases hceq
      left; exact ⟨rfl, rfl⟩

theorem C9_missing_elements_noop_witness :
    initializeFilterNav emptyPage = emptyPage ∧
    toggleSourcesSection emptyPage = emptyPage ∧
    filterSourcesCore emptyPage = emptyPage :=
  ⟨C9_missing_elements_noop.1 emptyPage (Or.inl rfl),
   C9_missing_elements_noop.2.1 emptyPage (Or.inl rfl),
   C9_missing_elements_noop.2.2 emptyPage (Or.inl rfl)⟩

theorem C7_aria_negation_invariant_witness :
    ariaNegationInv (initializeFilterNav basicPage) ∧
    (∀ t : PageState, ariaNegationInv t → ariaNegationInv (toggleSourcesSection t)) ∧
    (∀ t : PageState, t.sourcesContent.isSome = true →
        t.toggleButton.isSome = true → t.toggleText.isSome = true →
        t.toggleIconPresent = true → ariaNegationInv (toggleSourcesSection t)) :=
  C7_aria_negation_invariant basicPage rfl rfl

/-- Claim C1: after a filter pass, an item is visible (display `flex`) and
carries no `aria-hidden` marking iff the normalized query (lower-cased,
trimmed input value) is a substring of the item's lower-cased text or of its
lower-cased `data-source` attribute, a missing attribute being read as the
empty string; an empty or whitespace-only query leaves every item visible. -/
theorem C1_filter_visibility (s : PageState) (v : List Char) (c : AllSources)
    (hs : s.searchValue = some v) (hc : s.allSources = some c) :
    ∃ c', (filterSourcesCore s).allSources = some c' ∧
      c'.buttons = c.buttons.map (filterButtonPass (normalizeQuery v)) ∧
      (∀ b ∈ c.buttons,
        (((filterButtonPass (normalizeQuery v) b).display = "flex".data ∧
          (filterButtonPass (normalizeQuery v) b).ariaHidden = none) ↔
          (jsIncludes (listToLower b.textContent) (normalizeQuery v)
            || jsIncludes (listToLower (b.dataSource.getD [])) (normalizeQuery v))
            = true)) ∧
      ((v = [] ∨ ∀ ch ∈ v, isJsWs ch = true) →
        ∀ b' ∈ c'.buttons, b'.display = "flex".data ∧ b'.ariaHidden = none) := by
  obtain ⟨c', hc'1, hc'2⟩ :
      ∃ c', (filterSourcesCore s).allSources = some c' ∧
        c'.buttons = c.buttons.map (filterButtonPass (normalizeQuery v)) := by
    simp only [filterSourcesCore, hs, hc]
    exact ⟨_, rfl, rfl⟩
  refine ⟨c', hc'1, hc'2, fun b hb => ?_, fun hws b' hb' => ?_⟩
  · show _ ↔ buttonMatches (normalizeQuery v) b = true
    unfold filterButtonPass
    split
    · rename_i hm
      simp [hm]
    · rename_i hm
      simp only [hm, Bool.false_eq_true, iff_false]
      intro hcontra
      exact absurd hcontra.2 (by simp)
  · have hterm : normalizeQuery v = [] := by
      rcases hws with h | h
      · subst h; rfl
      · unfold normalizeQuery
        rw [listToLower_of_ws v h, jsTrim_of_ws v h]
    rw [hc'2, hterm] at hb'
    obtain ⟨b, _, rfl⟩ := List.mem_map.mp hb'
    have hmatch : buttonMatches [] b = true := by
      unfold buttonMatches
      rw [jsIncludes_nil]
      simp
    unfold filterButtonPass
    rw [hmatch]
    exact ⟨rfl, rfl⟩

/-- A sample source item. -/
def sampleButton : SourceButton :=
  { textContent := "BBC News".data, dataSource := some "bbc".data,
    display := "flex".data, ariaHidden := none }

/-- A page holding the search input (value `BBC`) and one source item. -/
def filterPage : PageState :=
  { sourcesContent := none, toggleButton := none, toggleText := none,
    toggleIconPresent := false, searchValue := some "BBC".data,
    allSources := some { buttons := [sampleButton], noResults := none },
    liveRegion := none }

theorem C1_filter_visibility_witness :
    filterPage.searchValue = some "BBC".data ∧
    filterPage.allSources = some { buttons := [sampleButton], noResults := none } ∧
    (∃ c', (filterSourcesCore filterPage).allSources = some c' ∧
      c'.buttons = [sampleButton].map (filterButtonPass (normalizeQuery "BBC".data)) ∧
      (∀ b ∈ [sampleButton],
        (((filterButtonPass (normalizeQuery "BBC".data) b).display = "flex".data ∧
          (filterButtonPass (normalizeQuery "BBC".data) b).ariaHidden = none) ↔
          (jsIncludes (listToLower b.textContent) (normalizeQuery "BBC".data)
            || jsIncludes (listToLower (b.dataSource.getD []))
                 (normalizeQuery "BBC".data)) = true)) ∧
      (("BBC".data = [] ∨ ∀ ch ∈ "BBC".data, isJsWs ch = true) →
        ∀ b' ∈ c'.buttons, b'.display = "flex".data ∧ b'.ariaHidden = none)) :=
  ⟨rfl, rfl,
   C1_filter_visibility filterPage "BBC".data
     { buttons := [sampleButton], noResults := none } rfl rfl⟩

/-- Claim C6: after every filter pass the live-region announcement text is
exactly determined by the normalized query and the match count: empty query
gives `All sources displayed`; a non-empty query gives `No sources found`
for 0 matches, `1 source found` for exactly 1 match and `<N> sources found`
(decimal `N`) for more than one match. -/
theorem C6_announcement (s : PageState) (v : List Char) (c : AllSources)
    (hs : s.searchValue = some v) (hc : s.allSources = some c) :
    (filterSourcesCore s).liveRegion =
      some (announceText (c.buttons.countP (buttonMatches (normalizeQuery v)))
        (normalizeQuery v)) ∧
    (normalizeQuery v = [] →
      announceText (c.buttons.countP (buttonMatches (normalizeQuery v)))
        (normalizeQuery v) = "All sources displayed".data) ∧
    (normalizeQuery v ≠ [] →
      c.buttons.countP (buttonMatches (normalizeQuery v)) = 0 →
      announceText (c.buttons.countP (buttonMatches (normalizeQuery v)))
        (normalizeQuery v) = "No sources found".data) ∧
    (normalizeQuery v ≠ [] →
      c.buttons.countP (buttonMatches (normalizeQuery v)) = 1 →
      announceText (c.buttons.countP (buttonMatches (normalizeQuery v)))
        (normalizeQuery v) = "1 source found".data) ∧
    (normalizeQuery v ≠ [] →
      1 < c.buttons.countP (buttonMatches (normalizeQuery v)) →
      announceText (c.buttons.countP (buttonMatches (normalizeQuery v)))
        (normalizeQuery v) =
        (Nat.repr (c.buttons.countP (buttonMatches (normalizeQuery v)))).data
          ++ " sources found".data) := by
  refine ⟨?_, fun h => ?_, fun h h0 => ?_, fun h h1 => ?_, fun h h2 => ?_⟩
  · simp only [filterSourcesCore, hs, hc]
  · rw [h]; rfl
  · cases hn : normalizeQuery v with
    | nil => exact absurd hn h
    | cons a t =>
      rw [hn] at h0
      rw [h0]
      rfl
  · cases hn : normalizeQuery v with
    | nil => exact absurd hn h
    | cons a t =>
      rw [hn] at h1
      rw [h1]
      rfl
  · cases hn : normalizeQuery v with
    | nil => exact absurd hn h
    | cons a t =>
      rw [hn] at h2
      have e0 : (List.countP (buttonMatches (a :: t)) c.buttons == 0) = false := by
        simp only [beq_eq_false_iff_ne]
        omega
      have e1 : (List.countP (buttonMatches (a :: t)) c.buttons == 1) = false := by
        simp only [beq_eq_false_iff_ne]
        omega
      simp [announceText, e0, e1]

/-- Claim C5 (amended): after every filter pass the single `.no-results`
message is displayed iff the normalized query is non-empty and no item
matches; when the pass creates it, its content is the template holding the
escaped current query; on later passes the existing message is reused with
the content given to it by the pass that created it, only its visibility
changing. -/
theorem C5_no_results_amended (s : PageState) (v : List Char) (c : AllSources)
    (hs : s.searchValue = some v) (hc : s.allSources = some c) :
    ∃ c', (filterSourcesCore s).allSources = some c' ∧
      ((∃ m, c'.noResults = some m ∧ m.display = "block".data) ↔
        (normalizeQuery v ≠ [] ∧
          c.buttons.countP (buttonMatches (normalizeQuery v)) = 0)) ∧
      (c.noResults = none → normalizeQuery v ≠ [] →
        c.buttons.countP (buttonMatches (normalizeQuery v)) = 0 →
        c'.noResults = some { innerHTML := noResultsHTML (normalizeQuery v),
                              display := "block".data }) ∧
      (∀ m, c.noResults = some m →
        c'.noResults = some { m with display :=
          if (c.buttons.countP (buttonMatches (normalizeQuery v)) == 0
              && !(normalizeQuery v).isEmpty) = true
          then "block".data else "none".data }) := by
  simp only [filterSourcesCore, hs, hc]
  refine ⟨_, rfl, ?_, ?_, ?_⟩
  · by_cases hcond :
        (c.buttons.countP (buttonMatches (normalizeQuery v)) == 0
          && !(normalizeQuery v).isEmpty) = true
    · rw [if_pos hcond]
      rw [Bool.and_eq_true, beq_iff_eq, Bool.not_eq_true'] at hcond
      have hterm : normalizeQuery v ≠ [] := by
        intro hh
        rw [hh] at hcond
        exact absurd hcond.2 (by simp)
      cases hm : c.noResults with
      | some m => exact iff_of_true ⟨_, rfl, rfl⟩ ⟨hterm, hcond.1⟩
      | none => exact iff_of_true ⟨_, rfl, rfl⟩ ⟨hterm, hcond.1⟩
    · rw [if_neg hcond]
      cases hm : c.noResults with
      | some m =>
        constructor
        · rintro ⟨m', hm', hd⟩
          cases hm'
          have hd' : ("none".data : List Char) = "block".data := hd
          exact absurd hd' (by decide)
        · rintro ⟨hterm, hcnt⟩
          exfalso
          apply hcond
          rw [hcnt]
          cases hterm' : normalizeQuery v with
          | nil => exact absurd hterm' hterm
          | cons a t => rfl
      | none =>
        constructor
        · rintro ⟨m', hm', _⟩
          exact Option.noConfusion hm'
        · rintro ⟨hterm, hcnt⟩
          exfalso
          apply hcond
          rw [hcnt]
          cases hterm' : normalizeQuery v with
          | nil => exact absurd hterm' hterm
          | cons a t => rfl
  · intro hnone hterm hcnt
    rw [hnone]
    have hcond : (c.buttons.countP (buttonMatches (normalizeQuery v)) == 0
        && !(normalizeQuery v).isEmpty) = true := by
      rw [hcnt]
      cases hterm' : normalizeQuery v with
      | nil => exact absurd hterm' hterm
      | cons a t => rfl
    rw [if_pos hcond]
  · intro m hm
    rw [hm]
    by_cases hcond :
        (c.buttons.countP (buttonMatches (normalizeQuery v)) == 0
          && !(normalizeQuery v).isEmpty) = true
    · rw [if_pos hcond, if_pos hcond]
    · rw [if_neg hcond, if_neg hcond]

/-- Witness state for the amended no-results claim. -/
theorem C5_no_results_amended_witness :
    filterPage.searchValue = some "BBC".data ∧
    filterPage.allSources = some { buttons := [sampleButton], noResults := none } ∧
    (∃ c', (filterSourcesCore filterPage).allSources = some c' ∧
      ((∃ m, c'.noResults = some m ∧ m.display = "block".data) ↔
        (normalizeQuery "BBC".data ≠ [] ∧
          (AllSources.mk [sampleButton] none).buttons.countP
            (buttonMatches (normalizeQuery "BBC".data)) = 0)) ∧
      ((AllSources.mk [sampleButton] none).noResults = none →
        normalizeQuery "BBC".data ≠ [] →
        (AllSources.mk [sampleButton] none).buttons.countP
          (buttonMatches (normalizeQuery "BBC".data)) = 0 →
        c'.noResults = some { innerHTML := noResultsHTML (normalizeQuery "BBC".data),
                              display := "block".data }) ∧
      (∀ m, (AllSources.mk [sampleButton] none).noResults = some m →
        c'.noResults = some { m with display :=
          if ((AllSources.mk [sampleButton] none).buttons.countP
                (buttonMatches (normalizeQuery "BBC".data)) == 0
              && !(normalizeQuery "BBC".data).isEmpty) = true
          then "block".data else "none".data })) :=
  ⟨rfl, rfl,
   C5_no_results_amended filterPage "BBC".data
     (AllSources.mk [sampleButton] none) rfl rfl⟩

/-- A page whose toggle label is not one of the two canonical phrasings and
whose ARIA attributes are unset. -/
def oddLabelPage : PageState :=
  { basicPage with toggleText := some "Hello".data }

/-- Claim C3 counterexample: from a start state whose toggle has no
`aria-expanded` attribute and whose label reads `Hello`, two toggles end at
`aria-expanded="false"` and label `Show All Sources`, not the original
values, so the double-toggle round trip fails for this starting state. -/
theorem C3_toggle_round_trip_cex :
    oddLabelPage.toggleText = some "Hello".data ∧
    oddLabelPage.toggleButton = some { ariaExpanded := none } ∧
    (toggleSourcesSection (toggleSourcesSection oddLabelPage)).toggleText
      = some "Show All Sources".data ∧
    (toggleSourcesSection (toggleSourcesSection oddLabelPage)).toggleButton
      = some { ariaExpanded := some "false".data } := by
  decide

/-- Claim C3 (amended): when the starting state is one of the two canonical
panel states (expanded with `aria-expanded="true"`, `aria-hidden="false"`
and label `Hide All Sources`, or collapsed with `aria-expanded="false"`,
`aria-hidden="true"` and label `Show All Sources`), applying the toggle
twice returns `aria-expanded`, `aria-hidden` and the label to their original
values. -/
theorem C3_toggle_round_trip_canonical (s : PageState)
    (content : SourcesContent) (button : ToggleButton) (text : List Char)
    (hc : s.sourcesContent = some content) (hb : s.toggleButton = some button)
    (ht : s.toggleText = some text) (hi : s.toggleIconPresent = true)
    (hcanon :
      (button.ariaExpanded = some "true".data ∧
        content.ariaHidden = some "false".data ∧
        text = "Hide All Sources".data) ∨
      (button.ariaExpanded = some "false".data ∧
        content.ariaHidden = some "true".data ∧
        text = "Show All Sources".data)) :
    (toggleSourcesSection (toggleSourcesSection s)).toggleButton
      = s.toggleButton ∧
    (∃ c2, (toggleSourcesSection (toggleSourcesSection s)).sourcesContent
        = some c2 ∧ c2.ariaHidden = content.ariaHidden) ∧
    (toggleSourcesSection (toggleSourcesSection s)).toggleText
      = s.toggleText := by
  obtain ⟨be⟩ := button
  rcases hcanon with ⟨h1, h2, h3⟩ | ⟨h1, h2, h3⟩ <;>
    · replace h1 : be = _ := h1
      subst h1
      subst h3
      simp [toggleSourcesSection, hc, hb, ht, hi, h2]

/-- The canonical collapsed page. -/
def collapsedPage : PageState :=
  { sourcesContent := some
      { display := "none".data, hasShowClass := false,
        ariaHidden := some "true".data },
    toggleButton := some { ariaExpanded := some "false".data },
    toggleText := some "Show All Sources".data,
    toggleIconPresent := true, searchValue := none, allSources := none,
    liveRegion := none }

theorem C3_toggle_round_trip_canonical_witness :
    (toggleSourcesSection (toggleSourcesSection collapsedPage)).toggleButton
      = collapsedPage.toggleButton ∧
    (∃ c2, (toggleSourcesSection (toggleSourcesSection collapsedPage)).sourcesContent
        = some c2 ∧ c2.ariaHidden = some "true".data) ∧
    (toggleSourcesSection (toggleSourcesSection collapsedPage)).toggleText
      = collapsedPage.toggleText :=
  C3_toggle_round_trip_canonical collapsedPage
    { display := "none".data, hasShowClass := false,
      ariaHidden := some "true".data }
    { ariaExpanded := some "false".data } "Show All Sources".data
    rfl rfl rfl rfl (Or.inr ⟨rfl, rfl, rfl⟩)

/-- A single source item whose text is just `a`. -/
def tinyButton : SourceButton :=
  { textContent := "a".data, dataSource := none, display := "flex".data,
    ariaHidden := none }

/-- `tinyButton` after being hidden by a non-matching pass. -/
def hiddenTinyButton : SourceButton :=
  { tinyButton with display := "none".data, ariaHidden := some "true".data }

/-- The container state produced by a zero-result pass for query `x` over
`[tinyButton]`. -/
def staleMsgContainer : AllSources :=
  { buttons := [hiddenTinyButton],
    noResults := some { innerHTML := noResultsHTML "x".data,
                        display := "block".data } }

/-- The page after a first zero-result pass for query `x`, with the input
value then edited to `y` (also matching nothing). -/
def staleMsgPage : PageState :=
  { filterSourcesCore
      { sourcesContent := none, toggleButton := none, toggleText := none,
        toggleIconPresent := false, searchValue := some "x".data,
        allSources := some { buttons := [tinyButton], noResults := none },
        liveRegion := none }
    with searchValue := some "y".data }

/-- Claim C5 counterexample: on the second zero-result pass (query `y`,
after a first zero-result pass for query `x` created the message) the
message is displayed but still holds the escaped text of `x`; it does not
contain the current query `y`, so the displayed message does not contain the
(escaped) query text as the claim states. -/
theorem C5_no_results_cex :
    normalizeQuery "y".data ≠ [] ∧
    staleMsgPage.allSources = some staleMsgContainer ∧
    (filterSourcesCore staleMsgPage).allSources = some staleMsgContainer ∧
    jsIncludes (noResultsHTML "x".data) (escapeHtml (normalizeQuery "y".data))
      = false := by
  decide

/-- A source-category navigation link whose target is an absolute URL. -/
def schemeLink : NavLink :=
  { href := some "https://example.com/feeds/".data, hasActiveClass := false,
    ariaCurrent := none }

/-- Claim C2 counterexample: for current path `/feeds/` and an unmarked link
targeting `https://example.com/feeds/`, stripping the scheme/host prefix as
the claim describes leaves `/feeds/`, which the current path contains, so
the claim says the link is marked; but `initializeActiveFilters` leaves it
unmarked, because the code strips only the leading run of non-slash
characters (`https:`), and `/feeds/` does not contain
`//example.com/feeds/`. -/
theorem C2_active_links_cex :
    stripSchemeHostSpec "https://example.com/feeds/".data = "/feeds/".data ∧
    jsIncludes "/feeds/".data
      (stripSchemeHostSpec "https://example.com/feeds/".data) = true ∧
    (initializeActiveFilters "/feeds/".data [schemeLink] []).1 = [schemeLink] ∧
    schemeLink.hasActiveClass = false ∧ schemeLink.ariaCurrent = none := by
  decide

/-- Claim C2 (amended): at initialization every link of the two categories is
passed through the marking step; a link with a non-empty href is marked
active with `aria-current="page"` iff the current path contains the href
with its maximal leading run of non-slash characters removed (for an
absolute URL only the scheme part `https:` is stripped, not the host; an
href without a slash is stripped entirely); a link with a missing or empty
href is left unmarked. -/
theorem C2_active_links_amended (currentPath : List Char)
    (cats srcs : List NavLink) :
    initializeActiveFilters currentPath cats srcs =
      (cats.map (markActiveFilter currentPath),
       srcs.map (markActiveFilter currentPath)) ∧
    (∀ link : NavLink, ∀ href, link.href = some href →
      link.hasActiveClass = false →
      (((markActiveFilter currentPath link).hasActiveClass = true ∧
        (markActiveFilter currentPath link).ariaCurrent = some "page".data) ↔
        (href ≠ [] ∧
          jsIncludes currentPath (href.dropWhile (fun c => c != '/')) = true))) ∧
    (∀ link : NavLink, link.href = none ∨ link.href = some [] →
      markActiveFilter currentPath link = link) := by
  refine ⟨rfl, fun link href hh hclean => ?_, fun link hh => ?_⟩
  · unfold markActiveFilter
    rw [hh]
    split
    · rename_i href2 hsome
      injection hsome with heq
      subst heq
      split
      · rename_i hcond
        rw [Bool.and_eq_true, Bool.not_eq_true'] at hcond
        refine iff_of_true ⟨rfl, rfl⟩ ⟨?_, hcond.2⟩
        intro hh'
        rw [hh'] at hcond
        exact absurd hcond.1 (by simp)
      · rename_i hcond
        constructor
        · rintro ⟨ha, _⟩
          rw [hclean] at ha
          exact absurd ha (by simp)
        · rintro ⟨hne, hinc⟩
          exfalso
          apply hcond
          rw [Bool.and_eq_true]
          refine ⟨?_, hinc⟩
          cases href with
          | nil => exact absurd rfl hne
          | cons a t => rfl
    · rename_i hnone
      exact Option.noConfusion hnone
  · rcases hh with hh | hh
    · unfold markActiveFilter
      rw [hh]
    · unfold markActiveFilter
      rw [hh]
      rfl

/-- A relative link matching the current path. -/
def relLink : NavLink :=
  { href := some "/feeds/tech/".data, hasActiveClass := false,
    ariaCurrent := none }

theorem C2_active_links_amended_witness :
    relLink.href = some "/feeds/tech/".data ∧
    relLink.hasActiveClass = false ∧
    (((markActiveFilter "/feeds/tech/".data relLink).hasActiveClass = true ∧
      (markActiveFilter "/feeds/tech/".data relLink).ariaCurrent
        = some "page".data) ↔
      ("/feeds/tech/".data ≠ [] ∧
        jsIncludes "/feeds/tech/".data
          ("/feeds/tech/".data.dropWhile (fun c => c != '/')) = true)) :=
  ⟨rfl, rfl,
   (C2_active_links_amended "/feeds/tech/".data [relLink] []).2.1 relLink
     "/feeds/tech/".data rfl rfl⟩

/-- Helper: within a burst (every gap under 150ms), the pending timer armed
at the first invocation is cancelled by each following invocation, and the
single surviving timer fires 150ms after the last invocation, reading the
last value. -/
theorem debounceRun_last :
    ∀ (rest : List (Nat × List Char)) (t : Nat) (v : List Char),
      gapsOk ((t, v) :: rest) = true →
      ∃ t' v', ((t, v) :: rest).getLast? = some (t', v') ∧
        debounceRun v (t + 150) rest = [(t' + 150, v')]
  | [], t, v, _ => ⟨t, v, rfl, rfl⟩
  | (t2, v2) :: rest, t, v, h => by
    rw [show gapsOk ((t, v) :: (t2, v2) :: rest)
        = ((t ≤ t2 && t2 < t + 150) && gapsOk ((t2, v2) :: rest)) from rfl,
      Bool.and_eq_true, Bool.and_eq_true, decide_eq_true_eq,
      decide_eq_true_eq] at h
    obtain ⟨t', v', hlast, hrun⟩ := debounceRun_last rest t2 v2 h.2
    refine ⟨t', v', ?_, ?_⟩
    · rw [List.getLast?_cons_cons]
      exact hlast
    · unfold debounceRun
      rw [if_neg (by omega : ¬ t + 150 ≤ t2)]
      exact hrun

/-- Claim C4: for a non-empty burst of invocations of the debounced
`filterSources` in which each invocation arrives less than 150ms after the
previous one, exactly one actual filter pass executes; it runs 150ms after
the last invocation and reads the input value as of that last invocation;
every superseded invocation is cancelled outright, never executed late. -/
theorem C4_debounce_burst (invs : List (Nat × List Char))
    (hgaps : gapsOk invs = true) (hne : invs ≠ []) :
    ∃ t v, invs.getLast? = some (t, v) ∧
      debounceTimeline invs = [(t + 150, v)] := by
  cases invs with
  | nil => exact absurd rfl hne
  | cons hd rest =>
    obtain ⟨t, v⟩ := hd
    exact debounceRun_last rest t v hgaps

theorem C4_debounce_burst_witness :
    gapsOk [(0, "n".data), (100, "ne".data), (200, "new".data)] = true ∧
    ∃ t v,
      ([(0, "n".data), (100, "ne".data), (200, "new".data)]
        : List (Nat × List Char)).getLast? = some (t, v) ∧
      debounceTimeline [(0, "n".data), (100, "ne".data), (200, "new".data)]
        = [(t + 150, v)] :=
  ⟨rfl, C4_debounce_burst _ rfl (List.cons_ne_nil _ _)⟩

/-- Helper: a filter pass whose input value is the empty string leaves every
item visible and removes every `aria-hidden` marking. -/
theorem filterSourcesCore_empty_value (s : PageState) (c : AllSources)
    (hs : s.searchValue = some []) (hc : s.allSources = some c) :
    ∃ c', (filterSourcesCore s).allSources = some c' ∧
      ∀ b' ∈ c'.buttons, b'.display = "flex".data ∧ b'.ariaHidden = none := by
  simp only [filterSourcesCore, hs, hc]
  refine ⟨_, rfl, ?_⟩
  intro b' hb'
  have hb2 : b' ∈ c.buttons.map (filterButtonPass (normalizeQuery [])) := hb'
  obtain ⟨b, _, rfl⟩ := List.mem_map.mp hb2
  have hmatch : buttonMatches (normalizeQuery []) b = true := by
    show buttonMatches [] b = true
    unfold buttonMatches
    rw [jsIncludes_nil]
    simp
  unfold filterButtonPass
  rw [hmatch]
  exact ⟨rfl, rfl⟩

/-- Claim C10: an Escape keydown while the search input exists and is
focused clears the input's value and invokes the (debounced) filter, whose
pass then leaves every item visible; when the input is absent or not
focused, Escape changes nothing and schedules no filter pass. -/
theorem C10_escape_key (s : PageState) :
    (∀ v, s.searchValue = some v →
      keydownEscapeStep true s = ({ s with searchValue := some [] }, true) ∧
      (∀ c, s.allSources = some c →
        ∃ c', (filterSourcesCore { s with searchValue := some [] }).allSources
            = some c' ∧
          ∀ b' ∈ c'.buttons, b'.display = "flex".data ∧ b'.ariaHidden = none)) ∧
    keydownEscapeStep false s = (s, false) ∧
    (s.searchValue = none → ∀ f, keydownEscapeStep f s = (s, false)) := by
  refine ⟨fun v hv => ⟨?_, fun c hcc => ?_⟩, ?_, fun hn f => ?_⟩
  · unfold keydownEscapeStep
    rw [hv]
    rfl
  · exact filterSourcesCore_empty_value _ c rfl hcc
  · unfold keydownEscapeStep
    cases hv : s.searchValue with
    | none => rfl
    | some v => rfl
  · unfold keydownEscapeStep
    rw [hn]

theorem C10_escape_key_witness :
    filterPage.searchValue = some "BBC".data ∧
    keydownEscapeStep true filterPage
      = ({ filterPage with searchValue := some [] }, true) ∧
    (∃ c', (filterSourcesCore
        { filterPage with searchValue := some [] }).allSources = some c' ∧
      ∀ b' ∈ c'.buttons, b'.display = "flex".data ∧ b'.ariaHidden = none) :=
  ⟨rfl,
   ((C10_escape_key filterPage).1 "BBC".data rfl).1,
   ((C10_escape_key filterPage).1 "BBC".data rfl).2
     { buttons := [sampleButton], noResults := none } rfl⟩

/-- Three sample items all matching the query `News`. -/
def newsButtonA : SourceButton :=
  { textContent := "ABC News".data, dataSource := some "abc-news".data,
    display := "flex".data, ariaHidden := none }

/-- Second sample news item. -/
def newsButtonB : SourceButton :=
  { textContent := "Sky News".data, dataSource := none,
    display := "flex".data, ariaHidden := none }

/-- Third sample news item. -/
def newsButtonC : SourceButton :=
  { textContent := "BBC News".data, dataSource := none,
    display := "flex".data, ariaHidden := none }

/-- A page with three news items and the query `News`. -/
def newsPage : PageState :=
  { sourcesContent := none, toggleButton := none, toggleText := none,
    toggleIconPresent := false, searchValue := some "News".data,
    allSources := some { buttons := [newsButtonA, newsButtonB, newsButtonC],
                         noResults := none },
    liveRegion := none }

theorem C6_announcement_witness :
    newsPage.searchValue = some "News".data ∧
    (filterSourcesCore newsPage).liveRegion = some "3 sources found".data :=
  ⟨rfl,
   ((C6_announcement newsPage "News".data
      { buttons := [newsButtonA, newsButtonB, newsButtonC], noResults := none }
      rfl rfl).1).trans (by decide)⟩
